import Mathlib

/-!
# GizmoSQL DuckDB statement bridge (`src/duckdb/duckdb_statement.cpp`)

A shallow embedding of `gizmosql::ddb::GetDataTypeFromDuckDbType` and of the
`DuckDBStatement` member functions `Create`, `Execute`, `FetchResult`,
`ExecuteUpdate` and `GetSchema`.

The file calls into two libraries whose code is not part of the repository:
Apache Arrow (`arrow::...`) and DuckDB (`duckdb::...`).  What the embedding
needs of them is kept in the namespaces `arrow` and `duckdb` below; each such
definition says which library declaration it stands for.
-/

/-! ## Apache Arrow: type descriptors -/

namespace arrow

/-- Time units of `arrow::TimeUnit::type`. -/
inductive TimeUnit where
  | SECOND | MILLI | MICRO | NANO
  deriving DecidableEq, Repr

/-- The `arrow::DataType` descriptors that the factory calls of
`GetDataTypeFromDuckDbType` can build.  The decimal descriptors carry
`(precision, scale)` in the order of Arrow's constructors
`DecimalNType(int32_t precision, int32_t scale)`. -/
inductive DataType where
  | null | boolean
  | int8 | int16 | int32 | int64
  | uint8 | uint16 | uint32
  | float32 | float64
  | utf8 | binary
  | date32
  | timestamp (unit : TimeUnit)
  | duration (unit : TimeUnit)
  | decimal32 (precision scale : Int)
  | decimal64 (precision scale : Int)
  | decimal128 (precision scale : Int)
  | decimal256 (precision scale : Int)
  deriving DecidableEq, Repr

/-- Precision of a decimal descriptor (`DecimalType::precision()`); `none` for
every other descriptor. -/
def DataType.precision : DataType → Option Int
  | .decimal32 p _ | .decimal64 p _ | .decimal128 p _ | .decimal256 p _ => some p
  | _ => none

/-- Scale of a decimal descriptor (`DecimalType::scale()`); `none` for every
other descriptor. -/
def DataType.scale : DataType → Option Int
  | .decimal32 _ s | .decimal64 _ s | .decimal128 _ s | .decimal256 _ s => some s
  | _ => none

/-- Says whether a descriptor is a timestamp type. -/
def DataType.isTimestamp : DataType → Bool
  | .timestamp _ => true
  | _ => false

/-- Arrow's `decimal32(precision, scale)`: builds a `Decimal32Type`, whose
constructor checks `kMinPrecision = 1 ≤ precision ≤ kMaxPrecision = 9` with
`ARROW_CHECK` (a failed check aborts the process: `none`). -/
def decimal32 (precision scale : Int) : Option DataType :=
  if 1 ≤ precision ∧ precision ≤ 9 then some (.decimal32 precision scale) else none

/-- Arrow's `decimal64(precision, scale)`; precision range `1 .. 18`. -/
def decimal64 (precision scale : Int) : Option DataType :=
  if 1 ≤ precision ∧ precision ≤ 18 then some (.decimal64 precision scale) else none

/-- Arrow's `decimal128(precision, scale)`; precision range `1 .. 38`. -/
def decimal128 (precision scale : Int) : Option DataType :=
  if 1 ≤ precision ∧ precision ≤ 38 then some (.decimal128 precision scale) else none

/-- Arrow's `decimal256(precision, scale)`; precision range `1 .. 76`. -/
def decimal256 (precision scale : Int) : Option DataType :=
  if 1 ≤ precision ∧ precision ≤ 76 then some (.decimal256 precision scale) else none

/-- Arrow's `smallest_decimal(int32_t precision, int32_t scale)`: the narrowest
decimal type whose maximum precision is at least `precision`.  The first
argument is the precision and the second the scale. -/
def smallest_decimal (precision scale : Int) : Option DataType :=
  if precision ≤ 9 then decimal32 precision scale
  else if precision ≤ 18 then decimal64 precision scale
  else if precision ≤ 38 then decimal128 precision scale
  else decimal256 precision scale

end arrow

/-! ## Apache Arrow: status, record batches -/

namespace arrow

/-- Arrow's `StatusCode` enumeration: the error kinds an `arrow::Status` can
carry. -/
inductive StatusCode where
  | OK | OutOfMemory | KeyError | TypeError | Invalid | IOError | CapacityError
  | IndexError | Cancelled | UnknownError | NotImplemented | SerializationError
  | RError | CodeGenError | ExpressionValidationError | ExecutionError | AlreadyExists
  deriving DecidableEq, Repr

/-- An `arrow::Status` that is not OK: its code and its message. -/
structure Status where
  code : StatusCode
  message : String
  deriving DecidableEq, Repr

/-- Arrow's `Status::Invalid(msg)`. -/
def Status.Invalid (msg : String) : Status := ⟨.Invalid, msg⟩

/-- Arrow's `Status::ExecutionError(args...)`; the caller passes the arguments
already concatenated, as Arrow's string builder joins them. -/
def Status.ExecutionError (msg : String) : Status := ⟨.ExecutionError, msg⟩

/-- Arrow's `Status::IndexError(msg)`. -/
def Status.IndexError (msg : String) : Status := ⟨.IndexError, msg⟩

/-- The `arrow::Type::type` ids; `OTHER code` stands for the ids not listed. -/
inductive TypeId where
  | NA | BOOL | UINT8 | INT8 | UINT16 | INT16 | UINT32 | INT32 | UINT64 | INT64
  | FLOAT | DOUBLE | STRING | BINARY | DATE32 | TIMESTAMP | DURATION | DECIMAL128
  | OTHER (code : Nat)
  deriving DecidableEq, Repr

/-- What `Array::GetScalar` returns, as far as `ExecuteUpdate` reads it:
`is_valid`, and `value`, the 64-bit payload seen through `Int64Scalar` (only read
when the column's type id is `INT64`). -/
structure Scalar where
  is_valid : Bool
  value : Int
  deriving DecidableEq, Repr

/-- One column of a record batch: its type id and one cell per row, `none` for a
null cell and `some v` for a valid cell whose 64-bit payload is `v`. -/
structure Array where
  type_id : TypeId
  cells : List (Option Int)
  deriving DecidableEq, Repr

/-- Arrow's `Array::length()`. -/
def Array.length (a : Array) : Nat := a.cells.length

/-- Arrow's `Array::GetScalar(i)`: an `IndexError` when `i` is out of bounds,
otherwise the scalar at row `i`, valid exactly when the cell is not null. -/
def Array.GetScalar (a : Array) (i : Nat) : Except Status Scalar :=
  match a.cells[i]? with
  | none => .error (Status.IndexError "index out of bounds")
  | some none => .ok ⟨false, 0⟩
  | some (some v) => .ok ⟨true, v⟩

/-- An `arrow::RecordBatch`: row count and columns, every column having one cell
per row (the invariant `arrow::ImportRecordBatch` establishes). -/
structure RecordBatch where
  num_rows : Nat
  columns : List Array
  columns_length : ∀ c ∈ columns, c.length = num_rows

/-- Arrow's `RecordBatch::num_columns()`. -/
def RecordBatch.num_columns (b : RecordBatch) : Nat := b.columns.length

/-- Arrow's `RecordBatch::column(i)`; `none` when there is no column `i`. -/
def RecordBatch.column (b : RecordBatch) (i : Nat) : Option Array := b.columns[i]?

/-- An imported `arrow::Schema`: the ordered fields, each a column name with the
interchange format string of its type. -/
structure Schema where
  fields : List (String × String)
  deriving DecidableEq, Repr

end arrow

/-! ## DuckDB: logical types -/

namespace duckdb

/-- The engine's logical type, as far as `GetDataTypeFromDuckDbType` looks at
it: the `LogicalTypeId` returned by `id()`, and for `DECIMAL` the width and
scale that `GetDecimalProperties` writes to its two `uint8_t` out-parameters.
`UNLISTED code` stands for every `LogicalTypeId` enumerator that has no `case`
label in the switch (it reaches `default:`). -/
inductive LogicalType where
  | INVALID | SQLNULL | UNKNOWN | ANY | USER
  | BOOLEAN | TINYINT | SMALLINT | INTEGER | BIGINT
  | DATE | TIME | TIMESTAMP_SEC | TIMESTAMP_MS | TIMESTAMP | TIMESTAMP_NS
  | DECIMAL (width scale : Nat)
  | FLOAT | DOUBLE | CHAR | VARCHAR | BLOB | INTERVAL
  | UTINYINT | USMALLINT | UINTEGER | UBIGINT
  | TIMESTAMP_TZ | TIME_TZ | HUGEINT
  | POINTER | VALIDITY | UUID
  | STRUCT | LIST | MAP | TABLE | ENUM
  | UNLISTED (code : Nat)
  deriving DecidableEq, Repr

/-- DuckDB's `ClientProperties`: the `time_zone` field, and in `other` all its
remaining fields together (the statement code copies them as a whole and never
reads or writes one of them). -/
structure ClientProperties where
  time_zone : String
  other : List (String × String)
  deriving DecidableEq, Repr

/-- DuckDB's `ClientContext`, as far as it is used: the value
`GetClientProperties()` returns. -/
structure ClientContext where
  client_properties : ClientProperties
  deriving DecidableEq, Repr

/-- `ClientContext::GetClientProperties()`. -/
def ClientContext.GetClientProperties (c : ClientContext) : ClientProperties :=
  c.client_properties

/-- A bound parameter value (`duckdb::Value`); the statement code only passes
these on. -/
inductive Value where
  | NULL
  | BIGINT (v : Int)
  | VARCHAR (s : String)
  deriving DecidableEq, Repr

/-- A native result chunk (`duckdb::DataChunk`); the statement code only hands
it to the exporter. -/
structure DataChunk where
  rows : List (List Value)
  deriving DecidableEq, Repr

/-- What one call of `QueryResult::TryFetch` will meet: a chunk, or a fetch
fault with the engine's diagnostic (`ErrorData::Message()`). -/
inductive FetchStep where
  | chunk (data : DataChunk)
  | fault (message : String)
  deriving DecidableEq, Repr

/-- DuckDB's `QueryResult`, as far as it is used: `HasError()`/`GetError()`, the
result's `types`, `names` and `client_properties`, and in `pending` the outcomes
the following `TryFetch` calls will meet, in order (the engine's cursor). -/
structure QueryResult where
  has_error : Bool
  error : String
  types : List LogicalType
  names : List String
  client_properties : ClientProperties
  pending : List FetchStep
  deriving DecidableEq, Repr

/-- `QueryResult::HasError()`. -/
def QueryResult.HasError (r : QueryResult) : Bool := r.has_error

/-- `QueryResult::GetError()`. -/
def QueryResult.GetError (r : QueryResult) : String := r.error

/-- `QueryResult::TryFetch(data_chunk, fetch_error)`: the success flag, the
chunk written to `data_chunk` (`none` is `nullptr`), the message of
`fetch_error`, and the result with its cursor advanced.  An exhausted result
keeps answering success with no chunk. -/
def QueryResult.TryFetch (r : QueryResult) : Bool × Option DataChunk × String × QueryResult :=
  match r.pending with
  | [] => (true, none, "", r)
  | .chunk c :: rest => (true, some c, "", { r with pending := rest })
  | .fault m :: rest => (false, none, m, { r with pending := rest })

/-- DuckDB's `PreparedStatement`, as far as it is used: `success`, the message
of `error`, `GetNames()`, `GetTypes()`, the `context`, and `Execute`, the
engine's answer to running the statement with the given bound values. -/
structure PreparedStatement where
  success : Bool
  error : String
  names : List String
  types : List LogicalType
  context : ClientContext
  Execute : List Value → QueryResult

/-- DuckDB's `Connection`, as far as it is used: the engine's answer to
`Prepare(sql)`. -/
structure Connection where
  Prepare : String → PreparedStatement

/-- The C `ArrowSchema` that `ArrowConverter::ToArrowSchema` fills in; it is
determined by the three arguments of the call, which are what is kept. -/
structure ArrowSchema where
  types : List LogicalType
  names : List String
  options : ClientProperties
  deriving DecidableEq, Repr

/-- The C `ArrowArray` that `ArrowConverter::ToArrowArray` fills in; it is
determined by the chunk and the client properties of the call (the
extension-type map passed is always empty). -/
structure ArrowArray where
  chunk : DataChunk
  options : ClientProperties
  deriving DecidableEq, Repr

/-- `ArrowConverter::ToArrowSchema(&out, types, names, options)`. -/
def ArrowConverter.ToArrowSchema (types : List LogicalType) (names : List String)
    (options : ClientProperties) : ArrowSchema :=
  ⟨types, names, options⟩

/-- `ArrowConverter::ToArrowArray(chunk, &out, options, {})`. -/
def ArrowConverter.ToArrowArray (chunk : DataChunk) (options : ClientProperties) : ArrowArray :=
  ⟨chunk, options⟩

end duckdb

/-! ## The type mapper -/

namespace gizmosql.ddb

open arrow duckdb

/-- Embedding of `GetDataTypeFromDuckDbType` (lines 36-107).  The result is
`none` exactly when an Arrow factory aborts in its precision check. -/
def GetDataTypeFromDuckDbType (duckdb_type : LogicalType) : Option DataType :=
  match duckdb_type with
  | .INTEGER => some .int32
  | .DECIMAL width scale => smallest_decimal (scale : Int) (width : Int)
  | .FLOAT => some .float32
  | .DOUBLE => some .float64
  | .CHAR | .VARCHAR => some .utf8
  | .BLOB => some .binary
  | .TINYINT => some .int8
  | .SMALLINT => some .int16
  | .BIGINT => some .int64
  | .BOOLEAN => some .boolean
  | .DATE => some .date32
  | .TIME | .TIMESTAMP_MS => some (.timestamp .MILLI)
  | .TIMESTAMP => some (.timestamp .MICRO)
  | .TIMESTAMP_SEC => some (.timestamp .SECOND)
  | .TIMESTAMP_NS => some (.timestamp .NANO)
  | .INTERVAL => some (.duration .MICRO)
  | .UTINYINT => some .uint8
  | .USMALLINT => some .uint16
  | .UINTEGER => some .uint32
  | .UBIGINT => some .int64
  | .INVALID | .SQLNULL | .UNKNOWN | .ANY | .USER
  | .TIMESTAMP_TZ | .TIME_TZ | .HUGEINT => decimal128 38 0
  | .POINTER | .VALIDITY | .UUID | .STRUCT | .LIST | .MAP | .TABLE | .ENUM
  | .UNLISTED _ => some .null

/-! ## The statement handle -/

/-- The two import functions of `arrow/c/bridge.h` that the statement code
calls.  Both can fail; their code is Arrow's, so they are taken as given. -/
structure CBridge where
  ImportRecordBatch : ArrowArray → ArrowSchema → Except Status RecordBatch
  ImportSchema : ArrowSchema → Except Status Schema

/-- Modelled from the spec: the class declaration (`duckdb_statement.h`) is not
among the sources.  The handle holds the shared connection and owns one
prepared statement and its current result; the members are the connection the
constructor receives and the three the member functions use, `stmt_`,
`query_result_` (`none` while the pointer is null, before the first `Execute`)
and `bind_parameters`. -/
structure DuckDBStatement where
  con_ : Connection
  stmt_ : PreparedStatement
  query_result_ : Option QueryResult
  bind_parameters : List Value

/-- Embedding of `DuckDBStatement::Create` (lines 109-122). -/
def DuckDBStatement.Create (con : Connection) (sql : String) : Except Status DuckDBStatement :=
  let stmt := con.Prepare sql
  if !stmt.success then
    let err_msg := "Can't prepare statement: '" ++ sql ++ "' - Error: " ++ stmt.error
    .error (Status.Invalid err_msg)
  else
    .ok ⟨con, stmt, none, []⟩

/-- Embedding of `DuckDBStatement::Execute` (lines 126-134): the value returned
and the handle afterwards. -/
def DuckDBStatement.Execute (self : DuckDBStatement) : Except Status Int × DuckDBStatement :=
  let query_result := self.stmt_.Execute self.bind_parameters
  let self1 := { self with query_result_ := some query_result }
  if query_result.HasError then
    (.error (Status.ExecutionError ("An execution error has occurred: " ++ query_result.GetError)),
      self1)
  else
    (.ok 0, self1)

/-- The `res_options` of `FetchResult` (lines 140-142): the connection
context's client properties with `time_zone` overwritten by the result's. -/
def DuckDBStatement.res_options (self : DuckDBStatement) (query_result : QueryResult) :
    ClientProperties :=
  let client_context := self.stmt_.context
  let res_options := client_context.GetClientProperties
  { res_options with time_zone := query_result.client_properties.time_zone }

/-- The `res_schema` of `FetchResult` (lines 144-145). -/
def DuckDBStatement.res_schema (self : DuckDBStatement) (query_result : QueryResult) :
    ArrowSchema :=
  ArrowConverter.ToArrowSchema query_result.types query_result.names
    (self.res_options query_result)

/-- Embedding of `DuckDBStatement::FetchResult` (lines 136-163): the value
returned (`ok none` is the null batch pointer) and the handle afterwards.  The
outer `none` is the null dereference of `query_result_` when nothing was
executed. -/
def DuckDBStatement.FetchResult (bridge : CBridge) (self : DuckDBStatement) :
    Option (Except Status (Option RecordBatch) × DuckDBStatement) :=
  match self.query_result_ with
  | none => none
  | some query_result =>
    let res_options := self.res_options query_result
    let res_schema := self.res_schema query_result
    match query_result.TryFetch with
    | (fetch_success, data_chunk, fetch_error, query_result1) =>
      let self1 := { self with query_result_ := some query_result1 }
      if !fetch_success then
        some (.error (Status.ExecutionError fetch_error), self1)
      else
        match data_chunk with
        | some chunk =>
          let res_arr := ArrowConverter.ToArrowArray chunk res_options
          match bridge.ImportRecordBatch res_arr res_schema with
          | .error status => some (.error status, self1)
          | .ok record_batch => some (.ok (some record_batch), self1)
        | none => some (.ok none, self1)

/-- The tail of `ExecuteUpdate` (lines 173-189), once `FetchResult` has
returned `result_batch`. -/
def DuckDBStatement.affected_rows (result_batch : Option RecordBatch) : Except Status Int :=
  match result_batch with
  | none => .ok 0
  | some batch =>
    let column0 :=
      if batch.num_rows == 1 && batch.num_columns == 1 then batch.column 0 else none
    match column0 with
    | some column =>
      if column.type_id == TypeId.INT64 then
        match column.GetScalar 0 with
        | .error status => .error status
        | .ok scalar =>
          if scalar.is_valid then .ok scalar.value else .ok (batch.num_rows : Int)
      else .ok (batch.num_rows : Int)
    | none => .ok (batch.num_rows : Int)

/-- Embedding of `DuckDBStatement::ExecuteUpdate` (lines 169-190). -/
def DuckDBStatement.ExecuteUpdate (bridge : CBridge) (self : DuckDBStatement) :
    Option (Except Status Int × DuckDBStatement) :=
  match self.Execute with
  | (.error status, self1) => some (.error status, self1)
  | (.ok _, self1) =>
    match self1.FetchResult bridge with
    | none => none
    | some (.error status, self2) => some (.error status, self2)
    | some (.ok result_batch, self2) => some (DuckDBStatement.affected_rows result_batch, self2)

/-- Embedding of `DuckDBStatement::GetSchema` (lines 192-206). -/
def DuckDBStatement.GetSchema (bridge : CBridge) (self : DuckDBStatement) :
    Except Status Schema :=
  let names := self.stmt_.names
  let types := self.stmt_.types
  let client_properties := self.stmt_.context.GetClientProperties
  let arrow_schema := ArrowConverter.ToArrowSchema types names client_properties
  bridge.ImportSchema arrow_schema

/-! ## Notions used in the statements -/

/-- The text of `needle` occurs in `haystack` as a contiguous run of
characters. -/
def IsSubstring (needle haystack : String) : Prop :=
  needle.data <:+: haystack.data

instance (needle haystack : String) : Decidable (IsSubstring needle haystack) :=
  inferInstanceAs (Decidable (needle.data <:+: haystack.data))

/-- The `StatusCode` of a returned value, `none` when it is not an error. -/
def error_code {α : Type} : Except Status α → Option StatusCode
  | .error status => some status.code
  | .ok _ => none

/-! ## Example engine, bridge and statements

Concrete data on which the theorems below are instantiated. -/

/-- Example: the cell an exported column holds for an engine value. -/
def example_cell : Value → Option Int
  | .NULL => none
  | .BIGINT v => some v
  | .VARCHAR _ => some 0

/-- Example: the Arrow type id an exported column gets. -/
def example_type_id : LogicalType → TypeId
  | .BIGINT => .INT64
  | .INTEGER => .INT32
  | .VARCHAR => .STRING
  | _ => .NA

/-- Example: column `j` of an exported chunk. -/
def example_column (arr : ArrowArray) (j : Nat) (t : LogicalType) : arrow.Array :=
  ⟨example_type_id t, arr.chunk.rows.map (fun row => example_cell (row[j]?.getD .NULL))⟩

/-- Example: the columns of an exported chunk, one per result type. -/
def example_columns (arr : ArrowArray) (types : List LogicalType) : List arrow.Array :=
  types.enum.map (fun p => example_column arr p.1 p.2)

/-- Example: the interchange format string of a logical type. -/
def example_format : LogicalType → String
  | .BIGINT => "l"
  | .INTEGER => "i"
  | .VARCHAR => "u"
  | _ => "n"

/-- Example: session properties with the given time zone. -/
def example_properties (time_zone : String) : ClientProperties :=
  ⟨time_zone, [("arrow_offset_size", "regular")]⟩

/-- Example: the result an `INSERT` of `n` rows gives, one `BIGINT` cell `n`,
evaluated in the time zone `America/New_York`. -/
def example_insert_result (n : Int) : QueryResult :=
  ⟨false, "", [.BIGINT], ["Count"], example_properties "America/New_York",
    [.chunk ⟨[[.BIGINT n]]⟩]⟩

/-- Example: a query result of five rows with two columns. -/
def example_select_result : QueryResult :=
  ⟨false, "", [.BIGINT, .VARCHAR], ["id", "name"], example_properties "UTC",
    [.chunk ⟨[[.BIGINT 1, .VARCHAR "a"], [.BIGINT 2, .VARCHAR "b"], [.BIGINT 3, .VARCHAR "c"],
      [.BIGINT 4, .VARCHAR "d"], [.BIGINT 5, .VARCHAR "e"]]⟩]⟩

/-- Example: a result whose execution failed with a division by zero. -/
def example_fault_result : QueryResult :=
  ⟨true, "Out of Range Error: division by zero", [.BIGINT], ["q"], example_properties "UTC", []⟩

/-- Example: a result whose execution succeeded and whose first fetch fails. -/
def example_fetch_fault_result : QueryResult :=
  ⟨false, "", [.BIGINT], ["q"], example_properties "UTC", [.fault "IO Error: read failed"]⟩

/-- Example: a prepared statement on a connection whose time zone is `UTC`,
running to the given result whatever values are bound. -/
def example_statement (result : QueryResult) : PreparedStatement :=
  ⟨true, "", result.names, result.types, ⟨example_properties "UTC"⟩, fun _ => result⟩

/-- Example: the engine rejects `SELECT FROM` and prepares every other text as
an insert of three rows. -/
def example_connection : Connection :=
  ⟨fun sql =>
    if sql = "SELECT FROM" then
      ⟨false, "Parser Error: syntax error at end of input", [], [], ⟨example_properties "UTC"⟩,
        fun _ => example_fault_result⟩
    else example_statement (example_insert_result 3)⟩

/-- Example: a handle on the given prepared statement, nothing executed yet. -/
def example_handle (result : QueryResult) : DuckDBStatement :=
  ⟨example_connection, example_statement result, none, []⟩

/-- Example: a bridge that imports every exported chunk and schema. -/
def example_bridge : CBridge where
  ImportRecordBatch arr schema :=
    .ok ⟨arr.chunk.rows.length, example_columns arr schema.types, by
      intro c hc
      simp only [example_columns, List.mem_map] at hc
      obtain ⟨p, _, rfl⟩ := hc
      simp [example_column, arrow.Array.length]⟩
  ImportSchema schema := .ok ⟨schema.names.zip (schema.types.map example_format)⟩

/-! ## Theorems: the type mapper -/

/-- The decimal arm hands `scale` to the precision parameter of
`smallest_decimal` and `width` to its scale parameter. -/
theorem GetDataTypeFromDuckDbType_decimal_call (width scale : Nat) :
    GetDataTypeFromDuckDbType (.DECIMAL width scale) =
      smallest_decimal (scale : Int) (width : Int) := rfl

/-- A decimal of scale 0 sends precision 0 to Arrow, whose precision check
aborts: `DECIMAL(18, 0)` gets no descriptor. -/
theorem GetDataTypeFromDuckDbType_decimal_scale_zero :
    GetDataTypeFromDuckDbType (.DECIMAL 18 0) = none := by decide

/-- C3 (code at the failing input): for `DECIMAL(width=10, scale=2)` the mapper
returns the 32-bit decimal of precision 2 and scale 10, whereas the smallest
decimal of precision 10 and scale 2 is the 64-bit decimal `(10, 2)`. -/
theorem GetDataTypeFromDuckDbType_decimal_10_2 :
    GetDataTypeFromDuckDbType (.DECIMAL 10 2) = some (.decimal32 2 10) ∧
    (GetDataTypeFromDuckDbType (.DECIMAL 10 2)).bind DataType.precision = some 2 ∧
    (GetDataTypeFromDuckDbType (.DECIMAL 10 2)).bind DataType.scale = some 10 ∧
    smallest_decimal 10 2 = some (.decimal64 10 2) ∧
    GetDataTypeFromDuckDbType (.DECIMAL 10 2) ≠ smallest_decimal 10 2 := by decide

/-- C5 (as stated, refuted): the unknown kind is not mapped to the null type; it
shares the arm of `HUGEINT` and gets the 128-bit decimal `(38, 0)`. -/
theorem GetDataTypeFromDuckDbType_unknown_not_null :
    GetDataTypeFromDuckDbType .UNKNOWN = some (.decimal128 38 0) ∧
    GetDataTypeFromDuckDbType .UNKNOWN ≠ some .null := by decide

/-- C5 (amended): the mapper returns a descriptor for every kind other than
decimal, and for struct, list, map, table, enum, uuid, pointer, validity and
every kind without a case label that descriptor is the null type. -/
theorem GetDataTypeFromDuckDbType_null_bucket :
    (∀ t : LogicalType, (∀ width scale, t ≠ .DECIMAL width scale) →
      ∃ d, GetDataTypeFromDuckDbType t = some d) ∧
    GetDataTypeFromDuckDbType .STRUCT = some .null ∧
    GetDataTypeFromDuckDbType .LIST = some .null ∧
    GetDataTypeFromDuckDbType .MAP = some .null ∧
    GetDataTypeFromDuckDbType .TABLE = some .null ∧
    GetDataTypeFromDuckDbType .ENUM = some .null ∧
    GetDataTypeFromDuckDbType .UUID = some .null ∧
    GetDataTypeFromDuckDbType .POINTER = some .null ∧
    GetDataTypeFromDuckDbType .VALIDITY = some .null ∧
    (∀ code, GetDataTypeFromDuckDbType (.UNLISTED code) = some .null) := by
  refine ⟨?_, rfl, rfl, rfl, rfl, rfl, rfl, rfl, rfl, fun _ => rfl⟩
  intro t ht
  cases t with
  | DECIMAL width scale => exact absurd rfl (ht width scale)
  | _ => exact ⟨_, rfl⟩

/-- Instance of the amended C5 at the 32-bit integer kind. -/
theorem GetDataTypeFromDuckDbType_null_bucket_witness :
    ∃ d, GetDataTypeFromDuckDbType .INTEGER = some d :=
  GetDataTypeFromDuckDbType_null_bucket.1 .INTEGER (fun _ _ h => LogicalType.noConfusion h)

/-- C9: time-of-day and millisecond timestamps both map to the millisecond
timestamp, interval maps to the microsecond duration, and unsigned 64-bit maps
to the signed 64-bit integer, the descriptor of the signed 64-bit kind. -/
theorem GetDataTypeFromDuckDbType_documented_assumptions :
    GetDataTypeFromDuckDbType .TIME = some (.timestamp .MILLI) ∧
    GetDataTypeFromDuckDbType .TIMESTAMP_MS = some (.timestamp .MILLI) ∧
    GetDataTypeFromDuckDbType .INTERVAL = some (.duration .MICRO) ∧
    GetDataTypeFromDuckDbType .UBIGINT = some .int64 ∧
    GetDataTypeFromDuckDbType .UBIGINT = GetDataTypeFromDuckDbType .BIGINT :=
  ⟨rfl, rfl, rfl, rfl, rfl⟩

/-- C10 (as stated, refuted): the timezone-aware timestamp kind gets the 128-bit
decimal `(38, 0)`, which is not a timestamp descriptor. -/
theorem GetDataTypeFromDuckDbType_timestamp_tz_not_timestamp :
    GetDataTypeFromDuckDbType .TIMESTAMP_TZ = some (.decimal128 38 0) ∧
    (GetDataTypeFromDuckDbType .TIMESTAMP_TZ).map DataType.isTimestamp = some false := by
  decide

/-- C10 (amended): each of the four timestamp kinds without time zone maps to
the timestamp descriptor of its own unit. -/
theorem GetDataTypeFromDuckDbType_timestamp_units :
    GetDataTypeFromDuckDbType .TIMESTAMP_SEC = some (.timestamp .SECOND) ∧
    GetDataTypeFromDuckDbType .TIMESTAMP_MS = some (.timestamp .MILLI) ∧
    GetDataTypeFromDuckDbType .TIMESTAMP = some (.timestamp .MICRO) ∧
    GetDataTypeFromDuckDbType .TIMESTAMP_NS = some (.timestamp .NANO) :=
  ⟨rfl, rfl, rfl, rfl⟩

/-! ## Theorems: the statement handle -/

/-- With a result stored, `FetchResult` returns. -/
theorem FetchResult_returns (bridge : CBridge) (self : DuckDBStatement) (qr : QueryResult)
    (h : self.query_result_ = some qr) : ∃ r, self.FetchResult bridge = some r := by
  unfold DuckDBStatement.FetchResult
  rw [h]
  dsimp only
  split
  · exact ⟨_, rfl⟩
  · split
    · split <;> exact ⟨_, rfl⟩
    · exact ⟨_, rfl⟩

/-- `Execute` stores a result in the handle it leaves. -/
theorem Execute_stores_result (self : DuckDBStatement) :
    self.Execute.2.query_result_ = some (self.stmt_.Execute self.bind_parameters) := by
  unfold DuckDBStatement.Execute
  dsimp only
  split <;> rfl

/-- `Execute` stores a result, so the `FetchResult` that follows it never meets
a null `query_result_`: `ExecuteUpdate` always returns. -/
theorem ExecuteUpdate_returns (bridge : CBridge) (self : DuckDBStatement) :
    ∃ r, self.ExecuteUpdate bridge = some r := by
  unfold DuckDBStatement.ExecuteUpdate
  have hstore := Execute_stores_result self
  rcases hexec : self.Execute with ⟨value, self1⟩
  rw [hexec] at hstore
  cases value with
  | error status => exact ⟨_, rfl⟩
  | ok n =>
    obtain ⟨⟨fetched, self2⟩, hfetch⟩ := FetchResult_returns bridge self1 _ hstore
    dsimp only
    rw [hfetch]
    cases fetched <;> exact ⟨_, rfl⟩

/-- C1: when `Execute` succeeds and the first `FetchResult` returns a batch of
one row and one column whose type is 64-bit signed integer and whose value `v`
is not null, `ExecuteUpdate` returns `v`, for every `v`. -/
theorem ExecuteUpdate_single_cell (bridge : CBridge) (self self1 self2 : DuckDBStatement)
    (r : Int) (batch : RecordBatch) (column : arrow.Array) (v : Int)
    (hexec : self.Execute = (.ok r, self1))
    (hfetch : self1.FetchResult bridge = some (.ok (some batch), self2))
    (hrows : batch.num_rows = 1) (hcols : batch.columns = [column])
    (htype : column.type_id = TypeId.INT64) (hvalue : column.cells[0]? = some (some v)) :
    self.ExecuteUpdate bridge = some (.ok v, self2) := by
  unfold DuckDBStatement.ExecuteUpdate
  rw [hexec]
  simp only [hfetch]
  simp [DuckDBStatement.affected_rows, hrows, RecordBatch.num_columns, RecordBatch.column,
    hcols, htype, arrow.Array.GetScalar, hvalue]

/-- Instance of C1: an insert whose single `BIGINT` cell holds `2^63 - 1`
reports `2^63 - 1` affected rows, not the batch's row count 1. -/
theorem ExecuteUpdate_single_cell_witness :
    ((example_handle (example_insert_result 9223372036854775807)).ExecuteUpdate
      example_bridge).map (fun p => p.1) = some (.ok 9223372036854775807) := by
  rw [ExecuteUpdate_single_cell example_bridge
    (example_handle (example_insert_result 9223372036854775807)) _ _ 0 _
    ⟨.INT64, [some 9223372036854775807]⟩ 9223372036854775807 rfl rfl rfl rfl rfl rfl]
  rfl

/-- The fallback of `ExecuteUpdate` on a batch that is not a single valid
64-bit integer cell: the batch's row count. -/
theorem affected_rows_fallback (batch : RecordBatch)
    (hshape : ¬ ∃ column v, batch.num_rows = 1 ∧ batch.columns = [column] ∧
      column.type_id = TypeId.INT64 ∧ column.cells[0]? = some (some v)) :
    DuckDBStatement.affected_rows (some batch) = .ok (batch.num_rows : Int) := by
  unfold DuckDBStatement.affected_rows
  dsimp only
  by_cases hone : (batch.num_rows == 1 && batch.num_columns == 1) = true
  · rw [if_pos hone]
    simp only [Bool.and_eq_true, beq_iff_eq, RecordBatch.num_columns] at hone
    obtain ⟨hrows, hlen⟩ := hone
    obtain ⟨column, hcols⟩ := List.length_eq_one.mp hlen
    simp only [RecordBatch.column, hcols, List.getElem?_cons_zero]
    by_cases htype : column.type_id = TypeId.INT64
    · have hwf : column.cells.length = 1 := by
        have := batch.columns_length column (by simp [hcols])
        simpa [arrow.Array.length, hrows] using this
      obtain ⟨cell, hcell⟩ := List.length_eq_one.mp hwf
      cases cell with
      | none => simp [htype, arrow.Array.GetScalar, hcell]
      | some v => exact absurd ⟨column, v, hrows, hcols, htype, by simp [hcell]⟩ hshape
    · simp [htype]
  · rw [if_neg hone]

/-- C2: when `Execute` and the first `FetchResult` succeed and the fetched
result is not a single valid 64-bit integer cell, `ExecuteUpdate` returns 0 if
no batch was fetched and the batch's row count otherwise. -/
theorem ExecuteUpdate_fallback (bridge : CBridge) (self self1 self2 : DuckDBStatement)
    (r : Int) (result_batch : Option RecordBatch)
    (hexec : self.Execute = (.ok r, self1))
    (hfetch : self1.FetchResult bridge = some (.ok result_batch, self2))
    (hshape : ¬ ∃ batch column v, result_batch = some batch ∧ batch.num_rows = 1 ∧
      batch.columns = [column] ∧ column.type_id = TypeId.INT64 ∧
      column.cells[0]? = some (some v)) :
    self.ExecuteUpdate bridge =
      some (.ok (match result_batch with
        | none => 0
        | some batch => (batch.num_rows : Int)), self2) := by
  unfold DuckDBStatement.ExecuteUpdate
  rw [hexec]
  simp only [hfetch]
  cases result_batch with
  | none => rfl
  | some batch =>
    rw [affected_rows_fallback batch]
    rintro ⟨column, v, h⟩
    exact hshape ⟨batch, column, v, rfl, h⟩

/-- Instance of C2: a statement whose batch has five rows of two columns
reports 5 affected rows. -/
theorem ExecuteUpdate_fallback_witness :
    ((example_handle example_select_result).ExecuteUpdate example_bridge).map (fun p => p.1) =
      some (.ok 5) := by
  rw [ExecuteUpdate_fallback example_bridge (example_handle example_select_result) _ _ 0
    (some ⟨5, example_columns ⟨⟨[[.BIGINT 1, .VARCHAR "a"], [.BIGINT 2, .VARCHAR "b"],
      [.BIGINT 3, .VARCHAR "c"], [.BIGINT 4, .VARCHAR "d"], [.BIGINT 5, .VARCHAR "e"]]⟩,
      example_properties "UTC"⟩ [.BIGINT, .VARCHAR], by decide⟩) rfl rfl
    (by rintro ⟨batch, column, v, hb, hrows, -⟩; cases hb; exact absurd hrows (by decide))]
  rfl

/-- The shapes C2 lists, on the fetched batch: one row of two columns, one row
of one column that is not 64-bit integer, and one row of one null 64-bit integer
cell all give 1; no batch gives 0. -/
theorem affected_rows_listed_shapes :
    DuckDBStatement.affected_rows none = .ok 0 ∧
    DuckDBStatement.affected_rows
      (some ⟨1, [⟨.INT64, [some 7]⟩, ⟨.INT64, [some 8]⟩], by decide⟩) = .ok 1 ∧
    DuckDBStatement.affected_rows (some ⟨1, [⟨.STRING, [some 7]⟩], by decide⟩) = .ok 1 ∧
    DuckDBStatement.affected_rows (some ⟨1, [⟨.INT64, [none]⟩], by decide⟩) = .ok 1 ∧
    DuckDBStatement.affected_rows (some ⟨1, [⟨.INT64, [some 7]⟩], by decide⟩) = .ok 7 :=
  ⟨rfl, rfl, rfl, rfl, rfl⟩

/-- C4 (as stated, refuted): a statement whose run succeeds and whose first
fetch fails gets from `FetchResult` an error of kind `ExecutionError`, the very
kind `Execute` returns for a statement whose run faults. -/
theorem FetchResult_fault_kind_not_distinct :
    error_code (example_handle example_fetch_fault_result).Execute.1 = none ∧
    ((example_handle example_fetch_fault_result).Execute.2.FetchResult example_bridge).map
      (fun p => error_code p.1) = some (some StatusCode.ExecutionError) ∧
    error_code (example_handle example_fault_result).Execute.1 =
      some StatusCode.ExecutionError :=
  ⟨rfl, rfl, rfl⟩

/-- C4 (amended): when the engine's chunk fetch fails, `FetchResult` returns an
error of kind `ExecutionError` whose message is the engine's fetch diagnostic;
every error `Execute` returns for a faulting run has that same kind, with the
message `An execution error has occurred: ` followed by the engine's error. -/
theorem FetchResult_fetch_fault (bridge : CBridge) (self : DuckDBStatement) (qr : QueryResult)
    (message : String) (rest : List FetchStep)
    (hresult : self.query_result_ = some qr)
    (hfault : qr.pending = FetchStep.fault message :: rest) :
    (∃ self1, self.FetchResult bridge =
      some (.error ⟨StatusCode.ExecutionError, message⟩, self1)) ∧
    (∀ other : DuckDBStatement,
      (other.stmt_.Execute other.bind_parameters).HasError = true →
      other.Execute.1 = .error ⟨StatusCode.ExecutionError,
        "An execution error has occurred: " ++
          (other.stmt_.Execute other.bind_parameters).GetError⟩) := by
  constructor
  · unfold DuckDBStatement.FetchResult
    rw [hresult]
    simp [QueryResult.TryFetch, hfault, Status.ExecutionError]
  · intro other hother
    simp [DuckDBStatement.Execute, hother, Status.ExecutionError]

/-- Instance of the amended C4: the fetch fault of the example statement comes
back as `ExecutionError` with the engine's diagnostic, and the division by zero
of the other example comes back from `Execute` with the same kind. -/
theorem FetchResult_fetch_fault_witness :
    (((example_handle example_fetch_fault_result).Execute.2.FetchResult example_bridge).map
      (fun p => p.1) = some (.error ⟨StatusCode.ExecutionError, "IO Error: read failed"⟩)) ∧
    (example_handle example_fault_result).Execute.1 = .error ⟨StatusCode.ExecutionError,
      "An execution error has occurred: Out of Range Error: division by zero"⟩ := by
  have h := FetchResult_fetch_fault example_bridge
    (example_handle example_fetch_fault_result).Execute.2 example_fetch_fault_result
    "IO Error: read failed" [] rfl rfl
  obtain ⟨⟨self1, h1⟩, h2⟩ := h
  exact ⟨by rw [h1]; rfl, by rw [h2 (example_handle example_fault_result) rfl]; rfl⟩

/-- C6: when the engine's prepare reports non-success, `Create` returns an
error, no handle, and the error's message contains the SQL text and the
engine's diagnostic verbatim; when prepare succeeds, `Create` returns a handle
on the prepared statement and no error. -/
theorem Create_prepare_outcome (con : Connection) (sql : String) :
    ((con.Prepare sql).success = false →
      ∃ status, DuckDBStatement.Create con sql = .error status ∧
        IsSubstring sql status.message ∧ IsSubstring (con.Prepare sql).error status.message) ∧
    ((con.Prepare sql).success = true →
      ∃ handle, DuckDBStatement.Create con sql = .ok handle ∧
        handle.stmt_ = con.Prepare sql ∧ handle.query_result_ = none) := by
  constructor
  · intro hfail
    refine ⟨Status.Invalid ("Can't prepare statement: '" ++ sql ++ "' - Error: " ++
      (con.Prepare sql).error), ?_, ?_, ?_⟩
    · simp [DuckDBStatement.Create, hfail]
    · exact ⟨"Can't prepare statement: '".data, ("' - Error: " ++ (con.Prepare sql).error).data, by
        simp [Status.Invalid, String.data_append]⟩
    · exact ⟨("Can't prepare statement: '" ++ sql ++ "' - Error: ").data, [], by
        simp [Status.Invalid, String.data_append]⟩
  · intro hok
    exact ⟨⟨con, con.Prepare sql, none, []⟩, by simp [DuckDBStatement.Create, hok], rfl, rfl⟩

/-- Instance of C6: `SELECT FROM` is rejected with a message that contains
`SELECT FROM`, and `SELECT 1` gives a handle. -/
theorem Create_prepare_outcome_witness :
    (∃ status, DuckDBStatement.Create example_connection "SELECT FROM" = .error status ∧
      IsSubstring "SELECT FROM" status.message ∧
      IsSubstring (example_connection.Prepare "SELECT FROM").error status.message) ∧
    (∃ handle, DuckDBStatement.Create example_connection "SELECT 1" = .ok handle ∧
      handle.stmt_ = example_connection.Prepare "SELECT 1" ∧ handle.query_result_ = none) :=
  ⟨(Create_prepare_outcome example_connection "SELECT FROM").1 (by decide),
    (Create_prepare_outcome example_connection "SELECT 1").2 (by decide)⟩

/-- C7: when the engine reports a fault on `Execute`, `Execute` returns an
`ExecutionError` and leaves the prepared statement as it was, so `GetSchema`
afterwards returns what it returned before (a schema it gave before, it gives
again); `GetSchema` is the same on any two handles with the same prepared
statement, whatever their result cursors. -/
theorem Execute_fault_keeps_schema (bridge : CBridge) (self : DuckDBStatement)
    (hfault : (self.stmt_.Execute self.bind_parameters).HasError = true) :
    error_code self.Execute.1 = some StatusCode.ExecutionError ∧
    self.Execute.2.stmt_ = self.stmt_ ∧
    self.Execute.2.GetSchema bridge = self.GetSchema bridge ∧
    (∀ schema, self.GetSchema bridge = .ok schema →
      self.Execute.2.GetSchema bridge = .ok schema) ∧
    (∀ a b : DuckDBStatement, a.stmt_ = b.stmt_ → a.GetSchema bridge = b.GetSchema bridge) := by
  have hstmt : self.Execute.2.stmt_ = self.stmt_ := by
    simp [DuckDBStatement.Execute, hfault]
  have hsame : ∀ a b : DuckDBStatement, a.stmt_ = b.stmt_ →
      a.GetSchema bridge = b.GetSchema bridge := by
    intro a b hab
    simp [DuckDBStatement.GetSchema, hab]
  refine ⟨?_, hstmt, hsame _ _ hstmt, ?_, hsame⟩
  · simp [DuckDBStatement.Execute, hfault, error_code, Status.ExecutionError]
  · intro schema hschema
    rw [hsame _ _ hstmt, hschema]

/-- Instance of C7: after the division by zero the example handle still gives
its schema, one column `q` of 64-bit integers. -/
theorem Execute_fault_keeps_schema_witness :
    error_code (example_handle example_fault_result).Execute.1 =
      some StatusCode.ExecutionError ∧
    (example_handle example_fault_result).Execute.2.GetSchema example_bridge =
      .ok ⟨[("q", "l")]⟩ :=
  have h := Execute_fault_keeps_schema example_bridge (example_handle example_fault_result) rfl
  ⟨h.1, h.2.2.2.1 ⟨[("q", "l")]⟩ rfl⟩

/-- C8: for a handle with an executed result, the client properties
`FetchResult` passes to the schema export and to the chunk export carry the
result's time zone and, in every other field, the connection context's
properties; the schema is exported from the result's types and names. -/
theorem FetchResult_uses_result_time_zone (bridge : CBridge) (self : DuckDBStatement)
    (qr : QueryResult) (hresult : self.query_result_ = some qr) :
    ∃ res_options : ClientProperties,
      res_options.time_zone = qr.client_properties.time_zone ∧
      res_options.other = self.stmt_.context.GetClientProperties.other ∧
      (∀ chunk rest, qr.pending = FetchStep.chunk chunk :: rest →
        ∃ self1, self.FetchResult bridge =
          some ((bridge.ImportRecordBatch (ArrowConverter.ToArrowArray chunk res_options)
            (ArrowConverter.ToArrowSchema qr.types qr.names res_options)).map some, self1)) := by
  refine ⟨self.res_options qr, rfl, rfl, ?_⟩
  intro chunk rest hpending
  unfold DuckDBStatement.FetchResult
  rw [hresult]
  simp only [QueryResult.TryFetch, hpending, DuckDBStatement.res_schema]
  cases bridge.ImportRecordBatch (ArrowConverter.ToArrowArray chunk (self.res_options qr))
    (ArrowConverter.ToArrowSchema qr.types qr.names (self.res_options qr)) <;>
    exact ⟨_, rfl⟩

/-- Instance of C8: the example connection is in `UTC` and the insert was
evaluated in `America/New_York`; the properties `FetchResult` exports with carry
`America/New_York`, and the connection's other fields. -/
theorem FetchResult_uses_result_time_zone_witness :
    (example_handle (example_insert_result 3)).stmt_.context.GetClientProperties.time_zone =
      "UTC" ∧
    ∃ res_options : ClientProperties,
      res_options.time_zone = "America/New_York" ∧
      res_options.other = [("arrow_offset_size", "regular")] ∧
      ∃ self1, (example_handle (example_insert_result 3)).Execute.2.FetchResult example_bridge =
        some ((example_bridge.ImportRecordBatch
          (ArrowConverter.ToArrowArray ⟨[[.BIGINT 3]]⟩ res_options)
          (ArrowConverter.ToArrowSchema [.BIGINT] ["Count"] res_options)).map some, self1) := by
  obtain ⟨res_options, htz, hother, hfetch⟩ := FetchResult_uses_result_time_zone example_bridge
    (example_handle (example_insert_result 3)).Execute.2 (example_insert_result 3) rfl
  exact ⟨rfl, res_options, htz, hother, hfetch ⟨[[.BIGINT 3]]⟩ [] rfl⟩

end gizmosql.ddb
